import Mathlib

/-!
Verification of the trial-generation and overfitting-aggregation pipeline in
`RiskLabAI/backtest/backtset_overfitting_in_the_machine_learning_era_simulation.py`.

The development shallowly embeds the parts of `backtset_overfitting_simulation`
that the claims are about:

* the chunking of the trial-return panel (lines 221-223 of the source:
  `n_chunks = ceil(P / L)` followed by `np.array_split(performances, n_chunks)`);
* the log-return construction (line 205:
  `(np.log(prices).diff() * positions.shift()).dropna()`);
* the combination of per-fold probability arrays (line 203:
  `np.vstack(...).mean(axis=0)` reindexed and `dropna`-ed);
* the grid sweep with its coupled-grid filter (lines 143-153), the nested
  model-hyperparameter loops (lines 191-213) and the aggregation entry
  (line 219: `pd.concat([...])`), with Python exceptions modelled by `Except`.

External collaborators (feature builders, labelers, CV schemes, closed-form
statistics) are out of scope of the source file and are abstracted as
parameters or as explicitly spec-modelled definitions.
-/

deriving instance DecidableEq for Except

/-- Python exceptions that the embedded fragments can raise. -/
inductive PyError where
  | keyError : PyError
  | indexError : PyError
  | valueError : String → PyError
  | zeroDivisionError : PyError
  | collaborator : String → PyError
deriving DecidableEq, Repr

/-! ## Chunking (source lines 221-223)

`n_chunks = ceil(performances.shape[0] / overfitting_partitions_length)` and
`np.array_split(performances, n_chunks)`.  `np.array_split(ary, n)` splits into
`n` sections: the first `P % n` sections have size `P / n + 1` and the rest
have size `P / n` (numpy's documented behaviour); `np.array_split(ary, 0)`
raises `ValueError`, and a zero partition length makes the Python division
raise `ZeroDivisionError`. -/

/-- Section sizes of `np.array_split` on `P` rows with `n` sections. -/
def arraySplitSizes (P n : Nat) : List Nat :=
  List.replicate (P % n) (P / n + 1) ++ List.replicate (n - P % n) (P / n)

/-- Cut a list into consecutive pieces of the given sizes. -/
def splitBySizes : List α → List Nat → List (List α)
  | _, [] => []
  | xs, s :: ss => xs.take s :: splitBySizes (xs.drop s) ss

/-- Embedding of `np.array_split(xs, n)` (row-wise split of the panel). -/
def arraySplit (xs : List α) (n : Nat) : List (List α) :=
  splitBySizes xs (arraySplitSizes xs.length n)

/-- Embedding of `ceil(P / L)` on natural numbers (`math.ceil` of the division
at source line 222). -/
def nChunks (P L : Nat) : Nat := (P + L - 1) / L

/-- Embedding of source lines 221-223: number of chunks by ceiling division,
then `np.array_split`; a zero chunk length raises `ZeroDivisionError` inside
`ceil(P / L)`, and `np.array_split(panel, 0)` raises `ValueError`. -/
def panelChunks (panel : List α) (L : Nat) : Except PyError (List (List α)) :=
  if L = 0 then Except.error PyError.zeroDivisionError
  else if nChunks panel.length L = 0 then
    Except.error (PyError.valueError "number sections must be larger than 0")
  else Except.ok (arraySplit panel (nChunks panel.length L))

/-- Row counts of the chunks produced at source lines 221-223 (the chunk
boundaries, since chunks are consecutive). -/
def chunkLens (panel : List α) (L : Nat) : Except PyError (List Nat) :=
  (panelChunks panel L).map (fun cs => cs.map List.length)

/-- Bool form of claim C2's property at one input: every chunk except the
last has exactly the configured length `L`. -/
def onlyLastMayBeShort (panel : List α) (L : Nat) : Bool :=
  match panelChunks panel L with
  | Except.ok cs => cs.dropLast.all (fun c => c.length == L)
  | Except.error _ => false

lemma arraySplitSizes_sum (P n : Nat) (hn : 1 ≤ n) :
    (arraySplitSizes P n).sum = P := by
  have hr : P % n ≤ n := le_of_lt (Nat.mod_lt P hn)
  have hP : n * (P / n) + P % n = P := Nat.div_add_mod P n
  simp only [arraySplitSizes, List.sum_append, List.sum_replicate, smul_eq_mul]
  rw [Nat.mul_add, Nat.mul_one, Nat.sub_mul]
  generalize hq : P / n = q at *
  generalize hrr : P % n = r at *
  have hmul : r * q ≤ n * q := Nat.mul_le_mul_right q hr
  generalize h1 : r * q = a at *
  generalize h2 : n * q = b at *
  omega

lemma arraySplitSizes_length (P n : Nat) (hn : 1 ≤ n) :
    (arraySplitSizes P n).length = n := by
  have hr : P % n ≤ n := le_of_lt (Nat.mod_lt P hn)
  simp [arraySplitSizes]
  omega

lemma splitBySizes_flatten (xs : List α) (ss : List Nat) :
    (splitBySizes xs ss).flatten = xs.take ss.sum := by
  induction ss generalizing xs with
  | nil => simp [splitBySizes]
  | cons s ss ih =>
      simp only [splitBySizes, List.flatten_cons, List.sum_cons, ih, List.take_add]

lemma splitBySizes_length (xs : List α) (ss : List Nat) :
    (splitBySizes xs ss).length = ss.length := by
  induction ss generalizing xs with
  | nil => rfl
  | cons s ss ih => simp [splitBySizes, ih]

lemma splitBySizes_map_length (xs : List α) (ss : List Nat)
    (h : ss.sum ≤ xs.length) :
    (splitBySizes xs ss).map List.length = ss := by
  induction ss generalizing xs with
  | nil => rfl
  | cons s ss ih =>
      simp only [List.sum_cons] at h
      have hs : s ≤ xs.length := le_trans (Nat.le_add_right s ss.sum) h
      have hrest : ss.sum ≤ (xs.drop s).length := by
        simp [List.length_drop]
        omega
      simp [splitBySizes, ih (xs.drop s) hrest, List.length_take, hs]

lemma nChunks_pos (P L : Nat) (hL : 1 ≤ L) (hP : 1 ≤ P) : 1 ≤ nChunks P L := by
  unfold nChunks
  rw [Nat.le_div_iff_mul_le (by omega)]
  omega

/-- Characterisation of `chunkLens`: the chunk row counts only depend on the
panel length and the configured chunk length. -/
lemma chunkLens_char (panel : List α) (L : Nat) :
    chunkLens panel L =
      if L = 0 then Except.error PyError.zeroDivisionError
      else if nChunks panel.length L = 0 then
        Except.error (PyError.valueError "number sections must be larger than 0")
      else Except.ok (arraySplitSizes panel.length (nChunks panel.length L)) := by
  unfold chunkLens panelChunks
  by_cases hL : L = 0
  · simp [hL, Except.map]
  · by_cases hn : nChunks panel.length L = 0
    · simp [hL, hn, Except.map]
    · have h1 : 1 ≤ nChunks panel.length L := Nat.one_le_iff_ne_zero.mpr hn
      simp only [hL, hn, if_false, Except.map]
      rw [arraySplit, splitBySizes_map_length]
      rw [arraySplitSizes_sum _ _ h1]

lemma panelChunks_ok (panel : List α) (L : Nat) (hL : 1 ≤ L) (hP : panel ≠ []) :
    panelChunks panel L = Except.ok (arraySplit panel (nChunks panel.length L)) := by
  have hp1 : 1 ≤ panel.length := List.length_pos.mpr hP
  have hn := nChunks_pos panel.length L hL hp1
  unfold panelChunks
  rw [if_neg (by omega), if_neg (by omega)]

lemma panelChunks_partition (panel : List α) (L : Nat) (hL : 1 ≤ L)
    (hP : panel ≠ []) :
    ∃ cs, panelChunks panel L = Except.ok cs ∧
      cs.length = nChunks panel.length L ∧ cs.flatten = panel := by
  have hp1 : 1 ≤ panel.length := List.length_pos.mpr hP
  have hn := nChunks_pos panel.length L hL hp1
  refine ⟨arraySplit panel (nChunks panel.length L),
    panelChunks_ok panel L hL hP, ?_, ?_⟩
  · rw [arraySplit, splitBySizes_length, arraySplitSizes_length _ _ hn]
  · rw [arraySplit, splitBySizes_flatten, arraySplitSizes_sum _ _ hn,
      List.take_length]

/-- Claim C1, counterexample to the claim as stated: the claim quantifies over
every trial panel of `P` rows and every chunk length `L >= 1`, but for the
empty panel (`P = 0`, reachable when all trial return series are empty) the
aggregation step computes `n_chunks = ceil(0 / L) = 0` and
`np.array_split(panel, 0)` raises `ValueError` instead of producing the claimed
`ceil(0 / L) = 0` chunks that partition the panel. -/
theorem claim_c1_counterexample :
    panelChunks ([] : List ℚ) 3 =
        Except.error (PyError.valueError "number sections must be larger than 0") ∧
      panelChunks ([] : List ℚ) 3 ≠ Except.ok [] := by
  constructor
  · rfl
  · decide

/-- Claim C1, amended: for every NONEMPTY trial panel of `P` rows and every
chunk length `L >= 1`, the aggregation step (source lines 221-223) splits the
panel into exactly `ceil(P / L)` chunks, and the chunks partition the panel
exactly, in the panel's row order (their concatenation is the panel itself, so
every row appears in exactly one chunk). -/
theorem claim_c1_chunk_count_and_partition (panel : List α) (L : Nat)
    (hL : 1 ≤ L) (hP : panel ≠ []) :
    ∃ cs, panelChunks panel L = Except.ok cs ∧
      cs.length = nChunks panel.length L ∧ cs.flatten = panel :=
  panelChunks_partition panel L hL hP

/-- Witness for claim C1's amended theorem at the concrete panel
`[0, 1, 2, 3, 4]` with chunk length 2. -/
theorem claim_c1_witness :
    1 ≤ 2 ∧ List.range 5 ≠ [] ∧
      ∃ cs, panelChunks (List.range 5) 2 = Except.ok cs ∧
        cs.length = nChunks (List.range 5).length 2 ∧ cs.flatten = List.range 5 :=
  ⟨by decide, by decide,
    claim_c1_chunk_count_and_partition (List.range 5) 2 (by decide) (by decide)⟩

/-- Claim C2, counterexample: for a 10-row panel with configured chunk length
4 the code produces chunks of 4, 3 and 3 rows (`np.array_split` makes
near-equal sections), so the second chunk, which is not the last, has length
3 rather than 4, refuting that every chunk except the last has exactly the
configured length. -/
theorem claim_c2_counterexample :
    chunkLens (List.range 10) 4 = Except.ok [4, 3, 3] ∧
      onlyLastMayBeShort (List.range 10) 4 = false := by
  decide

/-- Claim C2, amended: for every nonempty panel of `P` rows and chunk length
`L >= 1`, the chunks produced at source lines 221-223 have the near-equal
`np.array_split` lengths: with `n = ceil(P / L)`, the first `P % n` chunks
have `P / n + 1` rows and the remaining `n - P % n` chunks have `P / n` rows;
chunks other than the last may therefore be shorter than the configured
length `L`. -/
theorem claim_c2_chunk_lengths (panel : List α) (L : Nat)
    (hL : 1 ≤ L) (hP : panel ≠ []) :
    chunkLens panel L =
      Except.ok (arraySplitSizes panel.length (nChunks panel.length L)) := by
  have hp1 : 1 ≤ panel.length := List.length_pos.mpr hP
  have hn := nChunks_pos panel.length L hL hp1
  rw [chunkLens_char, if_neg (by omega), if_neg (by omega)]

/-- Witness for claim C2's amended theorem at the 10-row panel with chunk
length 4 (lengths `[4, 3, 3]`). -/
theorem claim_c2_witness :
    1 ≤ 4 ∧ List.range 10 ≠ [] ∧
      chunkLens (List.range 10) 4 =
        Except.ok (arraySplitSizes (List.range 10).length (nChunks (List.range 10).length 4)) :=
  ⟨by decide, by decide, claim_c2_chunk_lengths (List.range 10) 4 (by decide) (by decide)⟩

/-- Claim C9, counterexample: chunk row spans are NOT identical across CV
schemes merely because the partition length is shared; they depend on each
scheme's own panel length.  With the shared chunk length 2, a scheme whose
panel has 5 rows gets spans `[2, 2, 1]` while a scheme whose panel has 4 rows
gets `[2, 2]`. -/
theorem claim_c9_counterexample :
    chunkLens (List.range 5) 2 = Except.ok [2, 2, 1] ∧
      chunkLens (List.range 4) 2 = Except.ok [2, 2] ∧
      ([2, 2, 1] : List Nat) ≠ [2, 2] := by
  decide

/-- Claim C9, amended: chunk boundaries are a function of the panel's row
count and the single configured chunk length alone, so two CV schemes whose
panels have EQUAL row counts get identical chunk row spans; and each scheme's
chunks are disjoint with union equal to that scheme's full panel span (their
concatenation is the panel).  The code does not force the four schemes'
panels to have equal row counts. -/
theorem claim_c9_boundaries (pA : List α) (pB : List β) (L : Nat)
    (hlen : pA.length = pB.length) :
    chunkLens pA L = chunkLens pB L ∧
      (1 ≤ L → pA ≠ [] →
        ∃ cs, panelChunks pA L = Except.ok cs ∧ cs.flatten = pA) := by
  constructor
  · rw [chunkLens_char, chunkLens_char, hlen]
  · intro hL hP
    obtain ⟨cs, h1, _, h3⟩ := panelChunks_partition pA L hL hP
    exact ⟨cs, h1, h3⟩

/-- Witness for claim C9's amended theorem: two panels of 6 rows each (one of
naturals, one of rationals) with chunk length 4 have identical chunk spans. -/
theorem claim_c9_witness :
    chunkLens (List.range 6) 4 = chunkLens ([0, 1, 2, 3, 4, 5] : List ℚ) 4 ∧
      (1 ≤ 4 → List.range 6 ≠ [] →
        ∃ cs, panelChunks (List.range 6) 4 = Except.ok cs ∧
          cs.flatten = List.range 6) :=
  claim_c9_boundaries (List.range 6) ([0, 1, 2, 3, 4, 5] : List ℚ) 4 (by decide)

/-! ## Log-return construction (source lines 204-205)

`strategy_log_returns = (np.log(prices).diff() * positions.shift()).dropna()`.
Series are modelled positionally over the shared price index: entry `i` of a
`List (Option α)` is the value at the i-th timestamp, `none` standing for a
missing value (NaN).  Since `np.log` is transcendental, the embedding takes
the elementwise log-price series itself as input, over an arbitrary value
type with subtraction and multiplication; the claim only concerns the
diff/shift/multiply/dropna dataflow, which is independent of the numeric
carrier. -/

/-- Value of a series at position `i` (`none` when out of range or missing). -/
def sget (xs : List (Option α)) (i : Nat) : Option α := (xs.get? i).getD none

/-- Embedding of `Series.diff()`: first difference, `NaN` at position 0 and
wherever either operand is missing. -/
def pdDiff [Sub α] (xs : List (Option α)) : List (Option α) :=
  (List.range xs.length).map fun i =>
    if i = 0 then none
    else
      match sget xs i, sget xs (i - 1) with
      | some a, some b => some (a - b)
      | _, _ => none

/-- Embedding of `Series.shift()`: lag by one, `NaN` at position 0. -/
def pdShift (xs : List (Option α)) : List (Option α) :=
  (List.range xs.length).map fun i => if i = 0 then none else sget xs (i - 1)

/-- Embedding of elementwise series multiplication with NaN propagation. -/
def pdMul [Mul α] (a b : List (Option α)) : List (Option α) :=
  (List.range (min a.length b.length)).map fun i =>
    match sget a i, sget b i with
    | some x, some y => some (x * y)
    | _, _ => none

/-- Helper for `dropnaIdx`, carrying the position of the head of the list. -/
def dropnaIdxAux : Nat → List (Option α) → List (Nat × α)
  | _, [] => []
  | i, none :: xs => dropnaIdxAux (i + 1) xs
  | i, some v :: xs => (i, v) :: dropnaIdxAux (i + 1) xs

/-- Embedding of `Series.dropna()`, keeping each retained value with its
position in the original index. -/
def dropnaIdx (xs : List (Option α)) : List (Nat × α) := dropnaIdxAux 0 xs

/-- Embedding of source line 205: the per-trial log-return series. -/
def strategyLogReturns [Sub α] [Mul α] (logPrices positions : List (Option α)) : List (Nat × α) :=
  dropnaIdx (pdMul (pdDiff logPrices) (pdShift positions))

lemma get?_range_map {β : Type u} (f : Nat → β) (n i : Nat) :
    ((List.range n).map f).get? i = if i < n then some (f i) else none := by
  by_cases h : i < n
  · rw [List.get?_map, List.get?_range h, if_pos h]
    rfl
  · rw [if_neg h, List.get?_eq_none]
    simp only [List.length_map, List.length_range]
    omega

lemma sget_range_map (f : Nat → Option α) (n i : Nat) :
    sget ((List.range n).map f) i = if i < n then f i else none := by
  rw [sget, get?_range_map]
  by_cases h : i < n
  · rw [if_pos h, if_pos h]
    rfl
  · rw [if_neg h, if_neg h]
    rfl

lemma length_pdDiff [Sub α] (xs : List (Option α)) : (pdDiff xs).length = xs.length := by
  simp [pdDiff]

lemma length_pdShift (xs : List (Option α)) : (pdShift xs).length = xs.length := by
  simp [pdShift]

lemma dropnaIdxAux_mem (xs : List (Option α)) (k i : Nat) (r : α)
    (h : (i, r) ∈ dropnaIdxAux k xs) :
    ∃ j, i = k + j ∧ xs.get? j = some (some r) := by
  induction xs generalizing k with
  | nil => cases h
  | cons x xs ih =>
      cases x with
      | none =>
          obtain ⟨j, hj, hg⟩ := ih (k + 1) h
          exact ⟨j + 1, by omega, by simpa using hg⟩
      | some v =>
          rcases List.mem_cons.mp h with h1 | h1
          · rw [Prod.mk.injEq] at h1
            obtain ⟨rfl, rfl⟩ := h1
            exact ⟨0, by omega, rfl⟩
          · obtain ⟨j, hj, hg⟩ := ih (k + 1) h1
            exact ⟨j + 1, by omega, by simpa using hg⟩

lemma dropnaIdx_mem (xs : List (Option α)) (i : Nat) (r : α)
    (h : (i, r) ∈ dropnaIdx xs) : xs.get? i = some (some r) := by
  obtain ⟨j, hj, hg⟩ := dropnaIdxAux_mem xs 0 i r h
  have hji : j = i := by omega
  rw [← hji]
  exact hg

/-- Claim C4, confirmed: for every trial, each retained entry `(i, r)` of the
log-return series built at source line 205 satisfies `i ≥ 1` (so nothing
earlier than the second timestamp of the decision index survives) and
`r = (log p_i - log p_(i-1)) * position_(i-1)`: the first difference of the
log price at `i` times the position held at the previous timestamp, with
every timestamp left undefined by the lag or by missing inputs dropped; no
retained return uses information unavailable at decision time. -/
theorem claim_c4_lagged_log_returns [Sub α] [Mul α] (logPrices positions : List (Option α))
    (i : Nat) (r : α)
    (hmem : (i, r) ∈ strategyLogReturns logPrices positions) :
    1 ≤ i ∧ ∃ a b p,
      sget logPrices i = some a ∧ sget logPrices (i - 1) = some b ∧
        sget positions (i - 1) = some p ∧ r = (a - b) * p := by
  have hg := dropnaIdx_mem _ _ _ hmem
  rw [pdMul, get?_range_map] at hg
  by_cases hi : i < min (pdDiff logPrices).length (pdShift positions).length
  case neg => rw [if_neg hi] at hg; cases hg
  rw [if_pos hi] at hg
  have hf := Option.some.inj hg
  rw [length_pdDiff, length_pdShift] at hi
  have hiP : i < logPrices.length := lt_of_lt_of_le hi (min_le_left _ _)
  have hiS : i < positions.length := lt_of_lt_of_le hi (min_le_right _ _)
  cases hD : sget (pdDiff logPrices) i with
  | none => rw [hD] at hf; cases hf
  | some x =>
    cases hS : sget (pdShift positions) i with
    | none => rw [hD, hS] at hf; cases hf
    | some y =>
      rw [hD, hS] at hf
      have hr : x * y = r := Option.some.inj hf
      rw [pdDiff, sget_range_map, if_pos hiP] at hD
      by_cases hi0 : i = 0
      · rw [if_pos hi0] at hD; cases hD
      rw [if_neg hi0] at hD
      rw [pdShift, sget_range_map, if_pos hiS, if_neg hi0] at hS
      cases ha : sget logPrices i with
      | none => rw [ha] at hD; cases hD
      | some a =>
        cases hb : sget logPrices (i - 1) with
        | none => rw [ha, hb] at hD; cases hD
        | some b =>
          rw [ha, hb] at hD
          have hx : a - b = x := Option.some.inj hD
          refine ⟨by omega, a, b, y, rfl, rfl, hS, ?_⟩
          rw [← hr, ← hx]

/-- Witness for claim C4's theorem: with log prices `[1, 3]` and positions
`[2, 5]`, the return series is `[(1, (3 - 1) * 2)] = [(1, 4)]` and the
retained entry satisfies the lagged-product property. -/
theorem claim_c4_witness :
    (1, (4 : ℤ)) ∈ strategyLogReturns [some 1, some 3] [some 2, some 5] ∧
      (1 ≤ 1 ∧ ∃ a b p,
        sget [some (1 : ℤ), some 3] 1 = some a ∧
          sget [some (1 : ℤ), some 3] 0 = some b ∧
          sget [some (2 : ℤ), some 5] 0 = some p ∧ (4 : ℤ) = (a - b) * p) :=
  ⟨by decide,
    claim_c4_lagged_log_returns [some 1, some 3] [some 2, some 5] 1 4 (by decide)⟩

/-! ## Per-fold probability combination (source lines 202-203)

`probabilities = pd.Series(np.vstack(list(map(lambda x: x[:, 1],
predictions.values()))).mean(axis=0), times.index).dropna()`.

Each value of `predictions` is one fold's array of positive-class
probabilities.  Per the collaborator contract in the spec, a fold's array is
restricted to the samples held out in that fold; aligned over the full sample
index this is a full-length row with `NaN` (`none`) at the positions the fold
does not cover.  `np.vstack` requires all rows to have equal length (else it
raises `ValueError`, as does `np.vstack` of an empty list), and
`.mean(axis=0)` is the plain column mean, which is `NaN` as soon as any row
holds `NaN` in that column (`np.mean` propagates NaN; it is not `nanmean`). -/

/-- Column mean of `np.vstack(...).mean(axis=0)`: `NaN` (`none`) when the
column is empty or contains any `NaN`. -/
def npMeanCol (col : List (Option ℚ)) : Option ℚ :=
  if col.isEmpty then none
  else if col.all Option.isSome then
    some ((col.filterMap id).sum / (col.length : ℚ))
  else none

/-- Column `j` of the stacked per-fold probability rows. -/
def foldColumn (rows : List (List (Option ℚ))) (j : Nat) : List (Option ℚ) :=
  rows.map (fun r => sget r j)

/-- Embedding of source line 203's combination step: stack the per-fold rows
and take the column-wise mean.  The result is the combined probability series
(before the final `dropna`, which is `dropnaIdx`). -/
def vstackMeanRows (rows : List (List (Option ℚ))) :
    Except PyError (List (Option ℚ)) :=
  match rows with
  | [] => Except.error (PyError.valueError "need at least one array to concatenate")
  | r0 :: rest =>
      if rest.all (fun r => r.length == r0.length) then
        Except.ok ((List.range r0.length).map
          (fun j => npMeanCol (foldColumn (r0 :: rest) j)))
      else
        Except.error (PyError.valueError "all the input array dimensions must match exactly")

/-- Modelled from the spec: the Trial Executor must combine the folds' held
out probabilities "by averaging duplicate coverage ... and leaving uncovered
timestamps absent" — at each timestamp, the average of the estimates of the
folds that cover it, absent (`none`) when no fold covers it. -/
def specAverageCoverage (rows : List (List (Option ℚ))) (width : Nat) :
    List (Option ℚ) :=
  (List.range width).map fun j =>
    let covering := (foldColumn rows j).filterMap id
    if covering.isEmpty then none
    else some (covering.sum / (covering.length : ℚ))

lemma filterMap_id_length {β : Type} (col : List (Option β))
    (h : ∀ x ∈ col, x.isSome) : (col.filterMap id).length = col.length := by
  induction col with
  | nil => rfl
  | cons x xs ih =>
      cases x with
      | none => exact absurd (h none (List.mem_cons_self _ _)) (by simp)
      | some v =>
          simp only [List.filterMap_cons, id, List.length_cons]
          rw [ih (fun x hx => h x (List.mem_cons_of_mem _ hx))]

/-- Claim C5, counterexample: with three folds over a single timestamp, the
timestamp covered by the first two folds (estimates 1 and 0) but not by the
third, the claim requires the combined series to carry the average of the
covering folds' estimates.  The code instead takes the plain column mean over
ALL folds, which is `NaN` because the third fold's entry is missing, and the
subsequent `dropna` drops the timestamp entirely — overlapping coverage is
dropped, not averaged. -/
theorem claim_c5_counterexample :
    vstackMeanRows [[some (1 : ℚ)], [some 0], [none]] = Except.ok [none] ∧
      dropnaIdx ([none] : List (Option ℚ)) = [] ∧
      ((foldColumn [[some (1 : ℚ)], [some 0], [none]] 0).filterMap id).length = 2 ∧
      (specAverageCoverage [[some (1 : ℚ)], [some 0], [none]] 1).get? 0 ≠
        some none := by
  refine ⟨rfl, rfl, rfl, ?_⟩
  simp [specAverageCoverage, foldColumn, sget]

/-- Claim C5, amended: the trial executor combines the per-fold rows by the
plain column mean over ALL folds with NaN propagation — a timestamp obtains
the average of the covering folds' estimates exactly when EVERY fold supplies
an estimate there (in which case the result agrees with the spec's
average-of-coverage), and a timestamp missing from at least one fold's row
becomes `NaN` and is subsequently dropped, rather than being averaged over
its covering folds; timestamps covered by no fold are likewise absent. -/
theorem claim_c5_fold_combination (r0 : List (Option ℚ))
    (rest : List (List (Option ℚ)))
    (hlen : ∀ r ∈ rest, r.length = r0.length) :
    ∃ out, vstackMeanRows (r0 :: rest) = Except.ok out ∧
      ∀ j, j < r0.length →
        ((∀ r ∈ r0 :: rest, (sget r j).isSome) →
            out.get? j = (specAverageCoverage (r0 :: rest) r0.length).get? j) ∧
        ((∃ r ∈ r0 :: rest, sget r j = none) → out.get? j = some none) := by
  have hguard : rest.all (fun r => r.length == r0.length) = true := by
    rw [List.all_eq_true]
    intro r hr
    exact beq_iff_eq.mpr (hlen r hr)
  refine ⟨(List.range r0.length).map (fun j => npMeanCol (foldColumn (r0 :: rest) j)),
    by rw [vstackMeanRows, hguard]; rfl, ?_⟩
  intro j hj
  have hout : ((List.range r0.length).map
      (fun j => npMeanCol (foldColumn (r0 :: rest) j))).get? j =
      some (npMeanCol (foldColumn (r0 :: rest) j)) := by
    rw [get?_range_map, if_pos hj]
  constructor
  · intro hall
    have hcolall : ∀ x ∈ foldColumn (r0 :: rest) j, x.isSome := by
      intro x hx
      obtain ⟨r, hr, rfl⟩ := List.mem_map.mp hx
      exact hall r hr
    have hcolall' : (foldColumn (r0 :: rest) j).all Option.isSome = true := by
      rw [List.all_eq_true]
      exact fun x hx => hcolall x hx
    have hcne : (foldColumn (r0 :: rest) j).isEmpty = false := by
      simp [foldColumn]
    have hspec : (specAverageCoverage (r0 :: rest) r0.length).get? j =
        some (if ((foldColumn (r0 :: rest) j).filterMap id).isEmpty then none
          else some (((foldColumn (r0 :: rest) j).filterMap id).sum /
            (((foldColumn (r0 :: rest) j).filterMap id).length : ℚ))) := by
      rw [specAverageCoverage, get?_range_map, if_pos hj]
    have hflen : ((foldColumn (r0 :: rest) j).filterMap id).length =
        (foldColumn (r0 :: rest) j).length :=
      filterMap_id_length _ hcolall
    have hcollen : (foldColumn (r0 :: rest) j).length = rest.length + 1 := by
      simp [foldColumn]
    have hfne : ((foldColumn (r0 :: rest) j).filterMap id).isEmpty = false := by
      rw [Bool.eq_false_iff]
      intro h
      rw [List.isEmpty_iff_length_eq_zero] at h
      omega
    rw [hout, hspec, hfne, npMeanCol, hcne, hcolall', hflen]
    rfl
  · intro ⟨r, hr, hnone⟩
    have hcol : (foldColumn (r0 :: rest) j).all Option.isSome = false := by
      rw [Bool.eq_false_iff]
      intro hcontra
      rw [List.all_eq_true] at hcontra
      have := hcontra (sget r j) (List.mem_map.mpr ⟨r, hr, rfl⟩)
      rw [hnone] at this
      cases this
    rw [hout, npMeanCol, hcol]
    by_cases he : (foldColumn (r0 :: rest) j).isEmpty
    · rw [he]
      rfl
    · rw [Bool.not_eq_true] at he
      rw [he]
      rfl

/-- Witness for claim C5's amended theorem: two folds, both covering the
first timestamp and neither covering the second. -/
theorem claim_c5_witness :
    (∀ r ∈ [[some (1 : ℚ), none]], r.length = [some (1 : ℚ), none].length) ∧
      ∃ out, vstackMeanRows [[some (1 : ℚ), none], [some (1 : ℚ), none]] =
          Except.ok out ∧
        ∀ j, j < [some (1 : ℚ), none].length →
          ((∀ r ∈ [[some (1 : ℚ), none], [some (1 : ℚ), none]], (sget r j).isSome) →
              out.get? j = (specAverageCoverage
                [[some (1 : ℚ), none], [some (1 : ℚ), none]]
                [some (1 : ℚ), none].length).get? j) ∧
          ((∃ r ∈ [[some (1 : ℚ), none], [some (1 : ℚ), none]], sget r j = none) →
              out.get? j = some none) :=
  ⟨by simp, claim_c5_fold_combination [some (1 : ℚ), none] [[some (1 : ℚ), none]]
    (by simp)⟩

/-! ## Grid sweep skeleton (source lines 135-219)

The sweep enumerates strategy-parameter combinations (lines 143-145 via
`zip(*strategy_parameters.items())` and `itertools.product`), keeps only the
combinations passing the coupled-grid condition of lines 146-149 (value
comparisons against the index-0..3 candidates of `fast_window` and
`slow_window`, with Python's short-circuit `and`/`or` and its
`KeyError`/`IndexError` on missing keys/positions), then runs the nested
model/hyperparameter/CV-scheme loops of lines 191-213, appending one trial
per scheme per cell, and finally enters aggregation at line 219 where
`pd.concat` of an empty trial list raises `ValueError`.  The heavy per-trial
payload (features, labels, CV predictions, return series) is external to the
claims settled here and is abstracted: an oracle gives each cell's
collaborator outcome, and a trial is recorded by its metadata. -/

/-- A parameter grid: insertion-ordered mapping from parameter name to its
candidate values (a Python dict of lists). -/
abbrev Grid := List (String × List Int)

/-- One realized parameter combination (a Python dict of scalars). -/
abbrev Combo := List (String × Int)

/-- Embedding of `keys, values = zip(*d.items())` (source lines 143 and 196):
unpacking an empty dict raises `ValueError`. -/
def gridKeysValues (g : Grid) :
    Except PyError (List String × List (List Int)) :=
  if g.isEmpty then Except.error (PyError.valueError "not enough values to unpack")
  else Except.ok (g.map Prod.fst, g.map Prod.snd)

/-- Embedding of `itertools.product(*values)`, leftmost factor varying
slowest; the empty factor list yields the single empty combination. -/
def listProduct : List (List Int) → List (List Int)
  | [] => [[]]
  | vs :: rest =>
      (vs.map (fun v => (listProduct rest).map (fun tail => v :: tail))).flatten

/-- Embedding of Python dict subscription `d[k]`: `KeyError` when absent. -/
def dictGet (d : List (String × β)) (k : String) : Except PyError β :=
  match d.find? (fun kv => kv.fst == k) with
  | some kv => Except.ok kv.snd
  | none => Except.error PyError.keyError

/-- Embedding of Python list subscription `xs[i]`: `IndexError` out of range. -/
def listIndex (xs : List β) (i : Nat) : Except PyError β :=
  match xs.get? i with
  | some v => Except.ok v
  | none => Except.error PyError.indexError

/-- Embedding of one disjunct of the condition at source lines 146-149:
`strategy_params['fast_window'] == strategy_parameters['fast_window'][i] and
strategy_params['slow_window'] == strategy_parameters['slow_window'][i]`,
with Python's left-to-right evaluation and short-circuit `and`. -/
def coupledCond (g : Grid) (combo : Combo) (i : Nat) : Except PyError Bool := do
  let f ← dictGet combo "fast_window"
  let fl ← dictGet g "fast_window"
  let fi ← listIndex fl i
  if f == fi then
    let s ← dictGet combo "slow_window"
    let sl ← dictGet g "slow_window"
    let si ← listIndex sl i
    pure (s == si)
  else
    pure false

/-- Embedding of the full filter condition at source lines 146-149: the four
disjuncts for positions 0..3, with Python's short-circuit `or`. -/
def coupledFilter (g : Grid) (combo : Combo) : Except PyError Bool := do
  let c0 ← coupledCond g combo 0
  if c0 then pure true
  else
    let c1 ← coupledCond g combo 1
    if c1 then pure true
    else
      let c2 ← coupledCond g combo 2
      if c2 then pure true
      else coupledCond g combo 3

/-- Embedding of source lines 143-153 in isolation: the strategy-parameter
combinations that pass the coupled-grid filter, in product order. -/
def strategyCombos (g : Grid) : Except PyError (List Combo) := do
  let kv ← gridKeysValues g
  (listProduct kv.snd).foldlM (fun acc vals => do
    let combo := kv.fst.zip vals
    let keep ← coupledFilter g combo
    pure (if keep then acc ++ [combo] else acc)) []

/-- Metadata of one trial (source lines 206-213): the strategy parameters,
model name and model hyperparameters of the cell that produced it; the return
series payload is external to the claims settled on this skeleton. -/
structure TrialMeta where
  strategyParams : Combo
  modelName : String
  modelParams : Combo
deriving DecidableEq, Repr

/-- The model registry: model name to hyperparameter grid (the fitted model
object itself is an external collaborator). -/
abbrev Models := List (String × Grid)

/-- The four CV-scheme names, in the insertion order of the `results` dict at
source lines 135-140 (equally the `cross_validators` dict at 166-188). -/
def schemeNames : List String :=
  ["Walk-Forward", "K-Fold", "Purged K-Fold", "Combinatorial Purged"]

/-- Embedding of source lines 196-198: all hyperparameter combinations of one
model's grid (empty dict raises at unpacking, line 196). -/
def modelParamCombos (mg : Grid) : Except PyError (List Combo) := do
  let kv ← gridKeysValues mg
  pure ((listProduct kv.snd).map (fun vals => kv.fst.zip vals))

/-- Append a trial to its scheme's bucket (source line 206). -/
def appendTrial (rs : List (String × List TrialMeta)) (scheme : String)
    (t : TrialMeta) : List (String × List TrialMeta) :=
  rs.map (fun p => if p.fst == scheme then (p.fst, p.snd ++ [t]) else p)

/-- The initial `results` dict (source lines 135-140): all four scheme keys
present with empty trial lists. -/
def emptyBuckets : List (String × List TrialMeta) :=
  schemeNames.map (fun s => (s, []))

/-- Embedding of the grid sweep, source lines 142-213: enumerate strategy
combinations, filter by the coupled-grid condition, loop over models, their
hyperparameter combinations and the four CV schemes, consulting the
collaborator `oracle` (the CV scheme's `backtest_predictions` and everything
it entails) for each cell; no `try`/`except` exists anywhere in the source
function, so any exception propagates out of the whole sweep. -/
def gridSweep (g : Grid) (models : Models)
    (oracle : TrialMeta → String → Except PyError Unit) :
    Except PyError (List (String × List TrialMeta)) := do
  let kv ← gridKeysValues g
  (listProduct kv.snd).foldlM (fun results vals => do
    let combo := kv.fst.zip vals
    let keep ← coupledFilter g combo
    if keep then
      models.foldlM (fun results2 m => do
        let pcombos ← modelParamCombos m.snd
        pcombos.foldlM (fun results3 pc =>
          schemeNames.foldlM (fun results4 scheme => do
            let meta : TrialMeta := ⟨combo, m.fst, pc⟩
            let _ ← oracle meta scheme
            pure (appendTrial results4 scheme meta)) results3) results2) results
    else
      pure results) emptyBuckets

/-- Embedding of the aggregation entry, source lines 218-219: for each scheme
bucket in order, `pd.concat([trial['Returns'] for trial in trials], axis=1)`
raises `ValueError` when the bucket is empty; otherwise the panel statistics
are computed (abstracted here to the bucket's trial count). -/
def aggregateStage (rs : List (String × List TrialMeta)) :
    Except PyError (List (String × Nat)) :=
  rs.foldlM (fun acc p =>
    if p.snd.isEmpty then
      Except.error (PyError.valueError "No objects to concatenate")
    else pure (acc ++ [(p.fst, p.snd.length)])) []

/-- Embedding of the entry point's control flow for the error-behaviour
claims: the sweep followed by the aggregation stage. -/
def simulationSkeleton (g : Grid) (models : Models)
    (oracle : TrialMeta → String → Except PyError Unit) :
    Except PyError (List (String × Nat)) := do
  let rs ← gridSweep g models oracle
  aggregateStage rs

/-- The strategy grid named by claim C3. -/
def strategyGridC3 : Grid :=
  [("fast_window", [1, 2, 3, 4]), ("slow_window", [10, 20, 30, 40])]

/-- A strategy grid whose two candidate lists are empty. -/
def emptyStrategyGrid : Grid := [("fast_window", []), ("slow_window", [])]

/-- A one-combination strategy grid. -/
def strategyGridSmall : Grid := [("fast_window", [1]), ("slow_window", [10])]

/-- A registry with a single model carrying one hyperparameter candidate. -/
def modelsOne : Models := [("Model", [("depth", [1])])]

/-- A registry with a single model carrying two hyperparameter candidates. -/
def modelsTwo : Models := [("Model", [("depth", [1, 2])])]

/-- A collaborator oracle whose every cell succeeds. -/
def okOracle : TrialMeta → String → Except PyError Unit :=
  fun _ _ => Except.ok ()

/-- A collaborator oracle that throws inside every K-Fold cell. -/
def failKFoldOracle : TrialMeta → String → Except PyError Unit :=
  fun _ scheme =>
    if scheme == "K-Fold" then Except.error (PyError.collaborator "fit raised")
    else Except.ok ()

/-- Claim C3, confirmed: with `fast_window = [1,2,3,4]` and
`slow_window = [10,20,30,40]`, the enumeration at source lines 143-153
realizes exactly the four positionally paired configurations
`(1,10), (2,20), (3,30), (4,40)` in product order, and every other Cartesian
combination — in particular `(1,20)` — is silently skipped (the `continue`
branch) and never realized. -/
theorem claim_c3_coupled_grid_enumeration :
    strategyCombos strategyGridC3 =
        Except.ok [[("fast_window", (1 : Int)), ("slow_window", 10)],
          [("fast_window", 2), ("slow_window", 20)],
          [("fast_window", 3), ("slow_window", 30)],
          [("fast_window", 4), ("slow_window", 40)]] ∧
      [("fast_window", (1 : Int)), ("slow_window", 20)] ∉
        [[("fast_window", (1 : Int)), ("slow_window", 10)],
          [("fast_window", 2), ("slow_window", 20)],
          [("fast_window", 3), ("slow_window", 30)],
          [("fast_window", 4), ("slow_window", 40)]] := by
  exact ⟨by decide, by decide⟩

/-- Claim C6, counterexample: for the valid-shaped strategy grid whose two
candidate lists are empty (an empty grid axis), the sweep yields zero trials
for every scheme and then `pd.concat` of the empty trial list at source line
219 raises `ValueError`; the entry point raises instead of returning its two
result mappings. -/
theorem claim_c6_counterexample :
    simulationSkeleton emptyStrategyGrid modelsOne okOracle =
      Except.error (PyError.valueError "No objects to concatenate") := by
  decide

/-- Claim C6, amended: an empty grid axis does yield zero trials, but the run
then fails rather than completing: whenever the sweep finishes with all four
scheme buckets empty, the aggregation stage raises `ValueError` (`pd.concat`
with no objects), so the entry point raises instead of returning its two
result mappings.  (An empty strategy or hyperparameter dict raises even
earlier, at tuple unpacking, source lines 143/196.) -/
theorem claim_c6_empty_grid_raises (g : Grid) (models : Models)
    (oracle : TrialMeta → String → Except PyError Unit)
    (h : gridSweep g models oracle = Except.ok emptyBuckets) :
    simulationSkeleton g models oracle =
      Except.error (PyError.valueError "No objects to concatenate") := by
  unfold simulationSkeleton
  rw [h]
  rfl

/-- Witness for claim C6's amended theorem: the empty-candidate grid with one
model; the sweep completes with empty buckets and the run errors. -/
theorem claim_c6_witness :
    gridSweep emptyStrategyGrid modelsOne okOracle = Except.ok emptyBuckets ∧
      simulationSkeleton emptyStrategyGrid modelsOne okOracle =
        Except.error (PyError.valueError "No objects to concatenate") :=
  ⟨by decide, claim_c6_empty_grid_raises emptyStrategyGrid modelsOne okOracle (by decide)⟩

/-- Claim C8, counterexample: one strategy combination, one model with two
hyperparameter candidates, and a collaborator that throws inside every K-Fold
cell.  The claim requires only that cell's trial to be aborted with the sweep
continuing and the aggregator treating the missing cell as absent; instead
the exception propagates (there is no `try`/`except` in the source function)
and the whole run raises, producing no result mappings at all. -/
theorem claim_c8_counterexample :
    simulationSkeleton strategyGridSmall modelsTwo failKFoldOracle =
      Except.error (PyError.collaborator "fit raised") := by
  decide

/-- Claim C8, amended: a collaborator exception in any grid cell aborts the
entire run, not just the affected trial: an error outcome of the sweep
propagates unchanged out of the entry point, which returns no result
mappings. -/
theorem claim_c8_cell_error_aborts_run (g : Grid) (models : Models)
    (oracle : TrialMeta → String → Except PyError Unit) (e : PyError)
    (h : gridSweep g models oracle = Except.error e) :
    simulationSkeleton g models oracle = Except.error e := by
  unfold simulationSkeleton
  rw [h]
  rfl

/-- Witness for claim C8's amended theorem at the failing K-Fold collaborator:
the sweep errors on the very first K-Fold cell and the run returns that
error. -/
theorem claim_c8_witness :
    gridSweep strategyGridSmall modelsTwo failKFoldOracle =
        Except.error (PyError.collaborator "fit raised") ∧
      simulationSkeleton strategyGridSmall modelsTwo failKFoldOracle =
        Except.error (PyError.collaborator "fit raised") :=
  ⟨by decide, claim_c8_cell_error_aborts_run strategyGridSmall modelsTwo
    failKFoldOracle (PyError.collaborator "fit raised") (by decide)⟩

lemma except_ok_bind {ε : Type u} {β γ : Type v} (v : β) (f : β → Except ε γ) :
    (Except.ok v >>= f : Except ε γ) = f v := rfl

lemma listIndex_ok {β : Type} (xs : List β) (i : Nat) (h : i < xs.length) :
    ∃ v, listIndex xs i = Except.ok v := by
  unfold listIndex
  cases hg : xs.get? i with
  | none =>
      rw [List.get?_eq_none] at hg
      omega
  | some v => exact ⟨v, rfl⟩

lemma dictGet_ok {β : Type} (d : List (String × β)) (k : String)
    (h : ∃ kv ∈ d, kv.fst == k) : ∃ v, dictGet d k = Except.ok v := by
  unfold dictGet
  cases hfind : d.find? (fun kv => kv.fst == k) with
  | none =>
      rw [List.find?_eq_none] at hfind
      obtain ⟨kv, hmem, hk⟩ := h
      exact absurd hk (hfind kv hmem)
  | some kv => exact ⟨kv.snd, rfl⟩

lemma find?_pred {β : Type} (p : β → Bool) :
    ∀ (l : List β) (a : β), l.find? p = some a → p a := by
  intro l
  induction l with
  | nil => intro a h; cases h
  | cons x xs ih =>
      intro a h
      by_cases hp : p x
      · rw [List.find?_cons_of_pos _ hp] at h
        injection h with h
        rw [h] at hp
        exact hp
      · rw [List.find?_cons_of_neg _ hp] at h
        exact ih a h

lemma dictGet_mem {β : Type} (d : List (String × β)) (k : String) (v : β)
    (h : dictGet d k = Except.ok v) : ∃ kv ∈ d, kv.fst == k := by
  unfold dictGet at h
  cases hfind : d.find? (fun kv => kv.fst == k) with
  | none => rw [hfind] at h; cases h
  | some kv =>
      exact ⟨kv, List.mem_of_find?_eq_some hfind, find?_pred _ d kv hfind⟩

lemma zip_fst_mem (keys : List String) :
    ∀ (vals : List Int) (k : String), keys.length = vals.length →
      (∃ s ∈ keys, s == k) → ∃ kv ∈ keys.zip vals, kv.fst == k := by
  induction keys with
  | nil =>
      intro vals k _ hk
      obtain ⟨s, hs, _⟩ := hk
      cases hs
  | cons s ks ih =>
      intro vals k hlen hk
      cases vals with
      | nil => simp at hlen
      | cons v vs =>
          rcases hk with ⟨s', hs', hks'⟩
          rcases List.mem_cons.mp hs' with h1 | hmem
          · subst h1
            exact ⟨(s', v), List.mem_cons_self _ _, hks'⟩
          · have hlen' : ks.length = vs.length := by simpa using hlen
            obtain ⟨kv, hkv, hkk⟩ := ih vs k hlen' ⟨s', hmem, hks'⟩
            exact ⟨kv, List.mem_cons_of_mem _ hkv, hkk⟩

lemma listProduct_length (ls : List (List Int)) :
    ∀ vals ∈ listProduct ls, vals.length = ls.length := by
  induction ls with
  | nil =>
      intro vals h
      simp only [listProduct, List.mem_singleton] at h
      subst h
      rfl
  | cons vs rest ih =>
      intro vals h
      simp only [listProduct] at h
      rw [List.mem_flatten] at h
      obtain ⟨s, hs, hvals⟩ := h
      rw [List.mem_map] at hs
      obtain ⟨v, hv, rfl⟩ := hs
      rw [List.mem_map] at hvals
      obtain ⟨tail, htail, rfl⟩ := hvals
      simp [ih tail htail]

lemma foldlM_ok {ε β γ : Type} (f : γ → β → Except ε γ) :
    ∀ (l : List β) (init : γ),
      (∀ acc x, x ∈ l → ∃ y, f acc x = Except.ok y) →
      ∃ out, l.foldlM f init = Except.ok out := by
  intro l
  induction l with
  | nil => exact fun init _ => ⟨init, rfl⟩
  | cons x xs ih =>
      intro init h
      obtain ⟨y, hy⟩ := h init x (List.mem_cons_self _ _)
      obtain ⟨out, hout⟩ := ih y (fun acc z hz => h acc z (List.mem_cons_of_mem _ hz))
      refine ⟨out, ?_⟩
      rw [List.foldlM_cons, hy]
      exact hout

lemma gridKeysValues_ok (g : Grid) (h : g.isEmpty = false) :
    gridKeysValues g = Except.ok (g.map Prod.fst, g.map Prod.snd) := by
  unfold gridKeysValues
  rw [h]
  rfl

lemma coupledCond_ok (g : Grid) (vals : List Int) (fl sl : List Int)
    (hf : dictGet g "fast_window" = Except.ok fl)
    (hs : dictGet g "slow_window" = Except.ok sl)
    (hf4 : 4 ≤ fl.length) (hs4 : 4 ≤ sl.length)
    (hlen : (g.map Prod.fst).length = vals.length) (i : Nat) (hi : i < 4) :
    ∃ b, coupledCond g ((g.map Prod.fst).zip vals) i = Except.ok b := by
  have hkf : ∃ s ∈ g.map Prod.fst, s == "fast_window" := by
    obtain ⟨kv, hm, hk⟩ := dictGet_mem g "fast_window" fl hf
    exact ⟨kv.fst, List.mem_map_of_mem _ hm, hk⟩
  have hks : ∃ s ∈ g.map Prod.fst, s == "slow_window" := by
    obtain ⟨kv, hm, hk⟩ := dictGet_mem g "slow_window" sl hs
    exact ⟨kv.fst, List.mem_map_of_mem _ hm, hk⟩
  obtain ⟨fv, hfv⟩ := dictGet_ok _ "fast_window" (zip_fst_mem _ vals _ hlen hkf)
  obtain ⟨sv, hsv⟩ := dictGet_ok _ "slow_window" (zip_fst_mem _ vals _ hlen hks)
  obtain ⟨fi, hfi⟩ := listIndex_ok fl i (by omega)
  obtain ⟨si, hsi⟩ := listIndex_ok sl i (by omega)
  unfold coupledCond
  simp only [hfv, hf, hfi, hsv, hs, hsi, except_ok_bind]
  cases hb1 : fv == fi
  · exact ⟨false, rfl⟩
  · exact ⟨sv == si, rfl⟩

lemma coupledFilter_ok (g : Grid) (combo : Combo)
    (h : ∀ i, i < 4 → ∃ b, coupledCond g combo i = Except.ok b) :
    ∃ b, coupledFilter g combo = Except.ok b := by
  obtain ⟨b0, h0⟩ := h 0 (by omega)
  obtain ⟨b1, h1⟩ := h 1 (by omega)
  obtain ⟨b2, h2⟩ := h 2 (by omega)
  obtain ⟨b3, h3⟩ := h 3 (by omega)
  unfold coupledFilter
  simp only [h0, h1, h2, h3, except_ok_bind]
  cases b0 <;> cases b1 <;> cases b2 <;> exact ⟨_, rfl⟩

/-- Claim C10, counterexample: the claim asserts that any grid supplying
fewer than 4 candidates makes the filter's indexing of positions 0 through 3
raise a `KeyError`/`IndexError` before any trial is produced.  With both
candidate lists empty (zero candidates, so fewer than 4), the Cartesian
product is empty, the filter body never executes, and the enumeration
completes with no exception at all. -/
theorem claim_c10_counterexample :
    strategyCombos emptyStrategyGrid = Except.ok [] := by
  decide

/-- Claim C10, amended: when the strategy grid maps both `fast_window` and
`slow_window` to lists of at least 4 candidates, every coupled-filter
evaluation succeeds and the enumeration completes without `KeyError` or
`IndexError`.  The failure direction of the original claim does not hold
unconditionally: an empty candidate list yields no filter evaluations at all,
and otherwise the first product combination equals the index-0 candidates,
so the first condition short-circuits to true and trials are produced before
any later combination can hit a missing index. -/
theorem claim_c10_coupled_filter_precondition (g : Grid) (fl sl : List Int)
    (hf : dictGet g "fast_window" = Except.ok fl)
    (hs : dictGet g "slow_window" = Except.ok sl)
    (hf4 : 4 ≤ fl.length) (hs4 : 4 ≤ sl.length) :
    ∃ cs, strategyCombos g = Except.ok cs := by
  have hne : g.isEmpty = false := by
    cases g with
    | nil => rw [dictGet] at hf; cases hf
    | cons a l => rfl
  unfold strategyCombos
  rw [gridKeysValues_ok g hne]
  simp only [except_ok_bind]
  apply foldlM_ok
  intro acc vals hvals
  have h1 := listProduct_length (g.map Prod.snd) vals hvals
  rw [List.length_map] at h1
  have hlen : (g.map Prod.fst).length = vals.length := by
    rw [List.length_map]
    omega
  obtain ⟨b, hb⟩ := coupledFilter_ok g ((g.map Prod.fst).zip vals)
    (fun i hi => coupledCond_ok g vals fl sl hf hs hf4 hs4 hlen i hi)
  simp only [hb, except_ok_bind]
  exact ⟨_, rfl⟩

/-- Witness for claim C10's amended theorem at the 4-candidate grid of claim
C3: both lookups succeed, both lists have 4 candidates, and the enumeration
succeeds. -/
theorem claim_c10_witness :
    dictGet strategyGridC3 "fast_window" = Except.ok [1, 2, 3, 4] ∧
      dictGet strategyGridC3 "slow_window" = Except.ok [10, 20, 30, 40] ∧
      4 ≤ ([1, 2, 3, 4] : List Int).length ∧
      4 ≤ ([10, 20, 30, 40] : List Int).length ∧
      ∃ cs, strategyCombos strategyGridC3 = Except.ok cs :=
  ⟨by decide, by decide, by decide, by decide,
    claim_c10_coupled_filter_precondition strategyGridC3 [1, 2, 3, 4]
      [10, 20, 30, 40] (by decide) (by decide) (by decide) (by decide)⟩
